import Mathlib

/-!
Shallow embedding of `src/main.py` of the Gemma AI Educational Suite
(an offline educational chatbot around a local Gemma model), together
with theorems settling the specification claims about it.

Conventions of the embedding:
* Python `int` is `ℤ` (unbounded), Python floats appearing only as exact
  decimal constants (`6.25`, `1.3`, `0.2`, …) are `ℚ`.
* Fallible operations return `Except`/`Option`; a Python `try/except`
  becomes a `match` on the `Except`.
* Environment-dependent inputs (the tiktoken encoder, the filesystem,
  `soundfile` metadata, network state) are explicit parameters.
-/

namespace GemmaSuite

/-- Truthiness of an optional Python string: `not text` is true exactly
for `None` and for the empty string. -/
def pyFalsyStr (t : Option String) : Bool :=
  t = none ∨ t = some ""

/-- Python `str.strip()`: drop leading and trailing whitespace.
(Defined over the character list so that it evaluates by kernel
reduction, unlike `String.trim`.) -/
def pyStrip (s : String) : String :=
  ⟨((s.data.dropWhile Char.isWhitespace).reverse.dropWhile Char.isWhitespace).reverse⟩

/-- Python `len(s.split())`: number of maximal whitespace-free runs. -/
def pyWordCount (s : String) : ℕ :=
  ((s.data.splitOnP Char.isWhitespace).filter (· ≠ [])).length

/-- Python `int(q)` on a rational: truncation toward zero. -/
def pyInt (q : ℚ) : ℤ :=
  if 0 ≤ q then ⌊q⌋ else ⌈q⌉

/-- Value of a nonempty all-digit character list, `none` otherwise. -/
def digitsVal : List Char → Option ℕ
  | [] => none
  | cs =>
    if cs.all Char.isDigit then
      some (cs.foldl (fun a c => a * 10 + (c.toNat - '0'.toNat)) 0)
    else
      none

/-- Python `int(s)` on a string: strip whitespace, optional sign, digits;
`none` models the `ValueError` path. -/
def pyParseInt (s : String) : Option ℤ :=
  match (pyStrip s).data with
  | '+' :: rest => (digitsVal rest).map Int.ofNat
  | '-' :: rest => (digitsVal rest).map (fun n => -(n : ℤ))
  | cs => (digitsVal cs).map Int.ofNat

/-- Python slice `l[i:]` (start index may be negative, clamped like
Python clamps it). -/
def pySliceFrom (i : ℤ) {α : Type} (l : List α) : List α :=
  if 0 ≤ i then l.drop i.toNat else l.drop (l.length - (-i).toNat)

/-- The last `n` elements of a list. -/
def takeLastN {α : Type} (n : ℕ) (l : List α) : List α :=
  l.drop (l.length - n)

/-! ## TokenManager (`src/main.py` lines 241–273) -/

/-- `TokenManager.max_context_tokens`. -/
def max_context_tokens : ℕ := 32000

/-- `TokenManager.count_text_tokens`.  `enc` is the tiktoken
`cl100k_base` encoder when it loaded (`some f`, `f` returning the length
of the encoding) and `none` when `tiktoken.get_encoding` failed, in
which case the code falls back to `len(text.split()) * 1.3`. -/
def count_text_tokens (enc : Option (String → ℕ)) (text : Option String) : ℚ :=
  if pyFalsyStr text then 0
  else
    let s := text.getD ""
    match enc with
    | some f => (f s : ℚ)
    | none => (pyWordCount s : ℚ) * (13 / 10)

/-- `TokenManager.count_image_tokens`: `image_count * self.image_tokens`
with `image_tokens = 256`. -/
def count_image_tokens (image_count : ℕ) : ℕ :=
  image_count * 256

/-- `TokenManager.count_audio_tokens`:
`int(duration_seconds * self.audio_tokens_per_second)` with
`audio_tokens_per_second = 6.25`. -/
def count_audio_tokens (duration_seconds : ℚ) : ℤ :=
  pyInt (duration_seconds * (25 / 4))

/-! ## ModelThread streaming and cancellation (`src/main.py` lines 2720–2910)

`stop_generation` is a `threading.Event`: it starts clear and `stop()`
only ever sets it, so along a run it is set from some instant on.  We
model instants as naturals and the event by the instant `stopAt` at
which it was set (`none` when it is never set); `is_set()` at instant
`t` reads whether `stopAt ≤ t`. -/

/-- A message placed on `self.response_queue`. -/
inductive QueueMsg : Type
  | chunk (text : String)
  | complete
  | stopped
  | error (text : String)
  deriving DecidableEq

/-- `stop_generation.is_set()` read at instant `t`. -/
def eventIsSet (stopAt : Option ℕ) (t : ℕ) : Bool :=
  match stopAt with
  | none => false
  | some k => k ≤ t

/-- The cleaning applied in `StreamCapture.on_finalized_text`. -/
def cleanChunk (text : String) : String :=
  (((text.replace "<end_of_turn>" "").replace "<|end_of_text|>" "").replace
      "<|endoftext|>" "").replace "<start_of_turn>" ""

/-- `StreamCapture.on_finalized_text` invoked at instant `t`: the queue
message it enqueues, if any. -/
def on_finalized_text (stopAt : Option ℕ) (t : ℕ) (text : String) : Option QueueMsg :=
  if eventIsSet stopAt t then none
  else
    let cleaned := cleanChunk text
    if cleaned ≠ "" then some (QueueMsg.chunk cleaned) else none

/-- `StreamCapture.put` invoked at instant `t`: whether it forwards the
token batch to the underlying `TextStreamer` (which is what eventually
produces finalized text). -/
def streamPutForwards (stopAt : Option ℕ) (t : ℕ) : Bool :=
  !(eventIsSet stopAt t)

/-- The terminal message `ModelThread.run` enqueues after generation
finishes, reading the stop event at instant `t`
(`complete` when the event is clear, `stopped` when it is set). -/
def terminalMessage (stopAt : Option ℕ) (t : ℕ) : QueueMsg :=
  if eventIsSet stopAt t then QueueMsg.stopped else QueueMsg.complete

/-- The fallback (non-streaming) tokenization path of
`ModelThread.run` — the `except manual_error` handler (lines
2840–2884): at its entry instant `tEnter` it returns at once when the
stop event is already set; otherwise it runs a blocking `generate()`
with no streamer, and at instant `tPut` enqueues the decoded text as
one `('chunk', …)` message when it is non-blank.  `tPut` is unread on
purpose: the handler performs no stop check between entry and the
enqueue, exactly as in the source. -/
def fallback_generation_chunk (stopAt : Option ℕ) (tEnter tPut : ℕ)
    (response_text : String) : Option QueueMsg :=
  if eventIsSet stopAt tEnter then none
  else if pyStrip response_text ≠ "" then some (QueueMsg.chunk response_text)
  else none

/-! ## Prompt construction in `ModelThread.run` (`src/main.py` lines 2761–2791) -/

/-- An element of a list-valued message content: a `{'type': 'text',
'text': t}` dict (`t` defaulted to `''` by `item.get('text', '')`), a
plain string, or anything else (skipped by the loop). -/
inductive ContentItem : Type
  | textDict (t : String)
  | str (s : String)
  | other
  deriving DecidableEq

/-- A message content value: a string, a list, or any other Python
value (represented by its `str()` image, which is all the loop uses). -/
inductive MsgContent : Type
  | str (s : String)
  | list (items : List ContentItem)
  | other (repr : String)
  deriving DecidableEq

/-- An element of the `messages` list handed to `ModelThread`: either
not a dict (skipped) or a dict with its `role` (defaulted to `'user'`
by `msg.get`) and `content` (defaulted to `''`). -/
inductive PyMsg : Type
  | nonDict
  | dict (role : String) (content : MsgContent)
  deriving DecidableEq

/-- The flattening of a content value to a string: lists are reduced to
their text parts joined by a single space, other values to `str()`. -/
def contentToString : MsgContent → String
  | MsgContent.str s => s
  | MsgContent.list items =>
      " ".intercalate (items.filterMap fun it =>
        match it with
        | ContentItem.textDict t => some t
        | ContentItem.str s => some s
        | ContentItem.other => none)
  | MsgContent.other r => r

/-- The turn text one message contributes to `conversation_text`. -/
def turnText (m : PyMsg) : String :=
  match m with
  | PyMsg.nonDict => ""
  | PyMsg.dict role content =>
      let c := contentToString content
      if pyStrip c ≠ "" then
        if role = "user" then
          "<start_of_turn>user\n" ++ c ++ "<end_of_turn>\n"
        else
          "<start_of_turn>model\n" ++ c ++ "<end_of_turn>\n"
      else ""

/-- `conversation_text` as built by the accumulation loop of
`ModelThread.run` (non-cancelled path), including the trailing
generation prompt `<start_of_turn>model\n`. -/
def conversation_text (messages : List PyMsg) : String :=
  (messages.foldl (fun acc m => acc ++ turnText m) "") ++ "<start_of_turn>model\n"

/-- The prompt as the specification describes it: the in-order
concatenation of the per-message turns, followed by the final
`<start_of_turn>model\n`. -/
def specPromptBody : List PyMsg → String
  | [] => ""
  | m :: ms => turnText m ++ specPromptBody ms

/-- Specification-side prompt (concatenation form). -/
def specPrompt (messages : List PyMsg) : String :=
  specPromptBody messages ++ "<start_of_turn>model\n"

/-! ## ChatbotApp state and `send_message`
(`src/main.py` lines 2925–2955, 3402–3426, 3690–3760) -/

/-- An entry of `self.chat_history`, as produced by `add_message`:
every entry carries `role`, `content` and `tokens`. -/
structure HistEntry : Type where
  role : String
  content : String
  tokens : ℚ
  deriving DecidableEq

/-- An element of `self.attachments`.  The code only ever appends
dicts of type `'image'` or `'audio'`; for audio, `sf.info` either
yields a duration (`some d`) or raises (`none`, the `except` branch
that adds a flat 100 tokens). -/
inductive Attachment : Type
  | image (path : String)
  | audio (duration : Option ℚ)
  deriving DecidableEq

/-- Whether an attachment dict has `type == 'image'`. -/
def isImage : Attachment → Bool
  | Attachment.image _ => true
  | Attachment.audio _ => false

/-- The audio-token contribution of one attachment in
`calculate_total_input_tokens`: `count_audio_tokens(duration)` when
`sf.info` succeeds, 100 when it raises, 0 for non-audio. -/
def attachmentAudioTokens : Attachment → ℚ
  | Attachment.audio (some d) => (count_audio_tokens d : ℚ)
  | Attachment.audio none => 100
  | Attachment.image _ => 0

/-- The slice of `ChatbotApp` state that `send_message` and
`calculate_total_input_tokens` read.  `inputText` and `contextText`
are the raw widget contents (the code strips them on read);
`historySetting` is the raw `history_messages_var` string; `enc` is
the `TokenManager` encoder state. -/
structure AppState : Type where
  modelLoaded : Bool
  isGenerating : Bool
  inputText : String
  contextText : String
  chatHistory : List HistEntry
  historySetting : String
  attachments : List Attachment
  enc : Option (String → ℕ)

/-- `ChatbotApp.calculate_total_input_tokens`. -/
def calculate_total_input_tokens (s : AppState) : ℚ :=
  let text_tokens := count_text_tokens s.enc (some (pyStrip s.inputText))
  let context_tokens := count_text_tokens s.enc (some (pyStrip s.contextText))
  let max_messages : ℤ := (pyParseInt s.historySetting).getD 10
  let recent_history :=
    if (s.chatHistory.length : ℤ) > max_messages then
      pySliceFrom (-max_messages) s.chatHistory
    else s.chatHistory
  let history_tokens := (recent_history.map HistEntry.tokens).sum
  let image_tokens := (count_image_tokens (s.attachments.filter isImage).length : ℚ)
  let audio_tokens := (s.attachments.map attachmentAudioTokens).sum
  text_tokens + context_tokens + history_tokens + image_tokens + audio_tokens

/-- The dialog boxes `send_message` can pop before returning early. -/
inductive Dialog : Type
  | modelLoadingWarn
  | generationActiveWarn
  | tokenLimitError
  | emptyMessageWarn
  deriving DecidableEq

/-- An element of the `messages` list handed to `ModelThread` by
`send_message` (always a dict with string role and content). -/
structure Msg : Type where
  role : String
  content : String
  deriving DecidableEq

/-- The observable outcome of one `send_message` call. -/
structure SendResult : Type where
  dialog : Option Dialog
  chatHistory : List HistEntry
  inputText : String
  attachments : List Attachment
  attachmentNote : Bool
  threadStarted : Bool
  threadMessages : List Msg

/-- The outcome of an early `return`: a dialog, and no state change. -/
def noChangeResult (s : AppState) (d : Dialog) : SendResult :=
  { dialog := some d
    chatHistory := s.chatHistory
    inputText := s.inputText
    attachments := s.attachments
    attachmentNote := false
    threadStarted := false
    threadMessages := [] }

/-- `full_message` as built in `send_message` from the stripped input
text and context. -/
def full_message (text ctx : String) : String :=
  if ctx ≠ "" then
    "Based on the context below, please answer: " ++ text ++ "\n\nContext:\n" ++ ctx
  else text

/-- The history entry `add_message("user", text, input_tokens)`
appends: `input_tokens` is counted on `full_message`, and
`add_message` falls back to counting `content` when it is zero
(`if tokens:`). -/
def mkUserEntry (enc : Option (String → ℕ)) (text full : String) : HistEntry :=
  let input_tokens := count_text_tokens enc (some full)
  { role := "user"
    content := text
    tokens := if input_tokens ≠ 0 then input_tokens else count_text_tokens enc (some text) }

/-- The `messages` list built by `send_message` (lines 3722–3745):
the new user entry is appended to the history first, the window is
taken over `chat_history[:-1]`, blank entries are dropped, and the
full message (and the `"Hello"` fallback) close the list.  Note the
construction reads no attachment state. -/
def buildThreadMessages (enc : Option (String → ℕ)) (inputText contextText : String)
    (chatHistory : List HistEntry) (historySetting : String) : List Msg :=
  let text := pyStrip inputText
  let ctx := pyStrip contextText
  let full := full_message text ctx
  let hist1 := chatHistory ++ [mkUserEntry enc text full]
  let max_messages : ℤ := (pyParseInt historySetting).getD 10
  let prior := hist1.dropLast
  let recent :=
    if (prior.length : ℤ) > max_messages then pySliceFrom (-max_messages) prior else prior
  let msgs0 := recent.filterMap fun e =>
    if pyStrip e.content ≠ "" then some (⟨e.role, e.content⟩ : Msg) else none
  let msgs1 := if full ≠ "" then msgs0 ++ [⟨"user", full⟩] else msgs0
  if msgs1 = [] then [⟨"user", if text ≠ "" then text else "Hello"⟩] else msgs1

/-- `ChatbotApp.send_message` (lines 3690–3760): guards in source
order (model loading, generation active, token limit, empty message),
then the user entry is recorded, the worker messages are built, the
attachment note is shown when attachments are queued, input and
attachments are cleared, the `ModelThread` is started and the empty
assistant placeholder entry is appended. -/
def send_message (s : AppState) : SendResult :=
  if s.modelLoaded = false then noChangeResult s Dialog.modelLoadingWarn
  else if s.isGenerating = true then noChangeResult s Dialog.generationActiveWarn
  else if (max_context_tokens : ℚ) < calculate_total_input_tokens s then
    noChangeResult s Dialog.tokenLimitError
  else
    let text := pyStrip s.inputText
    let ctx := pyStrip s.contextText
    if text = "" ∧ ctx = "" then noChangeResult s Dialog.emptyMessageWarn
    else
      let full := full_message text ctx
      { dialog := none
        chatHistory :=
          (s.chatHistory ++ [mkUserEntry s.enc text full]) ++
            [{ role := "assistant", content := "", tokens := 0 }]
        inputText := ""
        attachments := []
        attachmentNote := !s.attachments.isEmpty
        threadStarted := true
        threadMessages :=
          buildThreadMessages s.enc s.inputText s.contextText s.chatHistory s.historySetting }

/-- Concrete state for the token-limit witness: encoder counts 50000
tokens for any text, everything else empty. -/
def overLimitState : AppState :=
  { modelLoaded := true
    isGenerating := false
    inputText := "hi"
    contextText := ""
    chatHistory := []
    historySetting := "10"
    attachments := []
    enc := some fun _ => 50000 }

/-- Concrete state with one queued image attachment. -/
def attachmentState : AppState :=
  { modelLoaded := true
    isGenerating := false
    inputText := "hi"
    contextText := ""
    chatHistory := []
    historySetting := "10"
    attachments := [Attachment.image "clipboard.png"]
    enc := some fun _ => 1 }

/-- Concrete state with the history-size setting `"0"` and two prior
non-blank history entries. -/
def zeroWindowState : AppState :=
  { modelLoaded := true
    isGenerating := false
    inputText := "hi"
    contextText := ""
    chatHistory :=
      [⟨"user", "earlier question", 5⟩, ⟨"assistant", "earlier answer", 5⟩]
    historySetting := "0"
    attachments := []
    enc := some fun _ => 1 }

/-- Concrete state with three prior history entries and window
setting `"2"`. -/
def windowWitnessState : AppState :=
  { modelLoaded := true
    isGenerating := false
    inputText := "next"
    contextText := ""
    chatHistory := [⟨"user", "q1", 1⟩, ⟨"assistant", "a1", 1⟩, ⟨"user", "q2", 1⟩]
    historySetting := "2"
    attachments := []
    enc := some fun _ => 1 }

/-! ## ModelManager model loading (`src/main.py` lines 66–191, 3590–3635) -/

/-- The persisted `ModelManager.config` dict fields the loading code
reads. -/
structure MMConfig : Type where
  downloadedModels : List String
  lastUsedModel : Option String
  offlineMode : Bool
  deriving DecidableEq

/-- Whether `ModelManager.load_model` reaches `download_model`:
when the model is locally downloaded it first tries
`load_local_model` and falls back to `download_model` on failure;
when it is not downloaded it goes straight to `download_model`.
`cfg` is in scope as `self.config` but — exactly as in the source —
the body never reads it (in particular not `offline_mode`). -/
def load_model_calls_download (cfg : MMConfig) (is_downloaded local_load_ok : Bool) : Bool :=
  if is_downloaded then (if local_load_ok then false else true)
  else true

/-- Whether the startup loader `ChatbotApp.init_model_async` reaches
`download_model` for the last-used model: it aborts when offline mode
is on and the model is not downloaded, aborts when there is no network
and the model is not downloaded, and otherwise defers to
`ModelManager.load_model`. -/
def init_model_async_calls_download (cfg : MMConfig)
    (is_downloaded local_load_ok is_online : Bool) : Bool :=
  if cfg.offlineMode && !is_downloaded then false
  else if !is_online && !is_downloaded then false
  else load_model_calls_download cfg is_downloaded local_load_ok

/-! ## ModelManager config persistence (`src/main.py` lines 76–95) -/

/-- A parsed JSON value. -/
inductive Json : Type
  | null
  | bool (b : Bool)
  | num (n : ℤ)
  | str (s : String)
  | arr (elems : List Json)
  | obj (fields : List (String × Json))

/-- The fallback configuration `load_config` returns when the file is
missing, unreadable or invalid. -/
def default_config : Json :=
  Json.obj
    [("downloaded_models", Json.arr []),
     ("last_used_model", Json.null),
     ("offline_mode", Json.bool false)]

/-- The state of the config file as the `try` block observes it. -/
inductive ConfigFileState : Type
  | missing
  | unreadable
  | invalidJson
  | parses (j : Json)

/-- The body of the `try` block of `load_config`: `os.path.exists`
false falls through without a value; `open` or `json.load` raise; a
parse yields the object. -/
def load_config_attempt : ConfigFileState → Except String (Option Json)
  | ConfigFileState.missing => Except.ok none
  | ConfigFileState.unreadable => Except.error "IOError"
  | ConfigFileState.invalidJson => Except.error "JSONDecodeError"
  | ConfigFileState.parses j => Except.ok (some j)

/-- `ModelManager.load_config`: the `try/except: pass` wrapper plus
the fall-through `return` of the default dict. -/
def load_config (fs : ConfigFileState) : Except String Json :=
  match load_config_attempt fs with
  | Except.ok (some j) => Except.ok j
  | Except.ok none => Except.ok default_config
  | Except.error _ => Except.ok default_config

/-- `ModelManager.save_config`: the write either succeeds or raises;
the `except Exception` arm prints and swallows the error, so the
function itself always returns (the `Option String` is the printed
error message). -/
def save_config (write : Except String Unit) : Except String (Option String) :=
  match write with
  | Except.ok _ => Except.ok none
  | Except.error e => Except.ok (some ("Error saving config: " ++ e))

/-! ## DocumentViewer page/zoom/selection state
(`src/main.py` lines 276–296, 459–508) -/

/-- The mutable viewer state for a PDF document. -/
structure ViewerState : Type where
  current_page : ℤ
  zoom_level : ℚ
  selected_pages : Finset ℤ
  deriving DecidableEq

/-- The user operations on the viewer.  `select_range` carries the raw
entry-widget strings (`int` may raise, which shows an error dialog and
changes nothing). -/
inductive ViewerOp : Type
  | prev_page
  | next_page
  | zoom_in
  | zoom_out
  | toggle_page_selection
  | select_range (fromStr toStr : String)
  | clear_selection

/-- The initial state set in `DocumentViewer.__init__`. -/
def viewer_init : ViewerState :=
  { current_page := 0, zoom_level := 1, selected_pages := ∅ }

/-- One user operation on the viewer state (`total_pages` is fixed by
the open document). -/
def viewer_step (total_pages : ℕ) (st : ViewerState) (op : ViewerOp) : ViewerState :=
  match op with
  | ViewerOp.prev_page =>
      if 0 < st.current_page then { st with current_page := st.current_page - 1 } else st
  | ViewerOp.next_page =>
      if st.current_page < (total_pages : ℤ) - 1 then
        { st with current_page := st.current_page + 1 }
      else st
  | ViewerOp.zoom_in => { st with zoom_level := min 3 (st.zoom_level + 1/5) }
  | ViewerOp.zoom_out => { st with zoom_level := max (1/2) (st.zoom_level - 1/5) }
  | ViewerOp.toggle_page_selection =>
      let p := st.current_page + 1
      if p ∈ st.selected_pages then
        { st with selected_pages := st.selected_pages.erase p }
      else { st with selected_pages := insert p st.selected_pages }
  | ViewerOp.select_range fromStr toStr =>
      match pyParseInt fromStr, pyParseInt toStr with
      | some a, some b =>
          let start := max 1 (min a (total_pages : ℤ))
          let stop := max start (min b (total_pages : ℤ))
          { st with selected_pages := st.selected_pages ∪ Finset.Icc start stop }
      | _, _ => st
  | ViewerOp.clear_selection => { st with selected_pages := ∅ }

/-- The state invariant of the viewer claimed for PDFs. -/
def viewer_inv (total_pages : ℕ) (st : ViewerState) : Prop :=
  0 ≤ st.current_page ∧ st.current_page < (total_pages : ℤ) ∧
  1/2 ≤ st.zoom_level ∧ st.zoom_level ≤ 3 ∧
  st.selected_pages ⊆ Finset.Icc 1 (total_pages : ℤ)

/-! ## ModelManager storage paths (`src/main.py` lines 67, 99–105, 196–228)

Paths are character lists.  Python's `str.replace` with a one-character
pattern and one-character replacement is exactly a character-wise map. -/

/-- `s.replace(pat, repl)` for one-character `pat`/`repl`. -/
def pyReplaceChar (pat repl : Char) (s : List Char) : List Char :=
  s.map fun c => if c = pat then repl else c

/-- The `safe_name` computed by `get_model_path`:
`model_name.replace("/", "_").replace("\\", "_")`. -/
def safe_name (model_name : List Char) : List Char :=
  pyReplaceChar '\\' '_' (pyReplaceChar '/' '_' model_name)

/-- `os.path.join(a, b)` on POSIX: an absolute second component
discards the first; otherwise a separator is inserted unless `a` is
empty or already ends with one. -/
def posixJoin (a b : List Char) : List Char :=
  if b.head? = some '/' then b
  else if a = [] ∨ a.getLast? = some '/' then a ++ b
  else a ++ '/' :: b

/-- `self.models_dir = os.path.join(os.path.expanduser("~"),
".educational_ai_tutor", "models")`, with `home` the expansion of
`"~"`. -/
def models_dir (home : List Char) : List Char :=
  posixJoin (posixJoin home ".educational_ai_tutor".data) "models".data

/-- `ModelManager.get_model_path`. -/
def get_model_path (home model_name : List Char) : List Char :=
  posixJoin (models_dir home) (safe_name model_name)

/-- Split a path on a separator character (keeping empty components,
like `"a//b".split("/")`). -/
def splitSep (sep : Char) : List Char → List (List Char)
  | [] => [[]]
  | c :: cs =>
      match splitSep sep cs with
      | [] => [[]]
      | r :: rs => if c = sep then [] :: r :: rs else (c :: r) :: rs

/-- One step of POSIX path resolution over the component stack: empty
and `"."` components are dropped, `".."` pops the last component, and
anything else is pushed. -/
def resolveStep (acc : List (List Char)) (comp : List Char) : List (List Char) :=
  if comp = [] ∨ comp = ['.'] then acc
  else if comp = ['.', '.'] then acc.dropLast
  else acc ++ [comp]

/-- The resolved component list a path refers to on the filesystem
(what the OS computes for `exists`, `rmtree`, `walk`): split on the
separator, then resolve `"."` and `".."`. -/
def resolvePath (p : List Char) : List (List Char) :=
  (splitSep '/' p).foldl resolveStep []

end GemmaSuite

namespace GemmaSuite

/-- Sanity: the empty string is falsy, a nonempty one is not. -/
theorem pyFalsyStr_checks : pyFalsyStr (some "") = true ∧ pyFalsyStr (some "x") = false := by
  decide

/-- String append with the empty string on the right. -/
theorem str_append_empty (s : String) : s ++ "" = s := by
  apply String.ext
  simp [String.data_append]

/-- String append is associative. -/
theorem str_append_assoc (a b c : String) : a ++ b ++ c = a ++ (b ++ c) := by
  apply String.ext
  simp [String.data_append]

/-- The accumulation loop of `conversation_text` against the
concatenation form. -/
theorem foldl_turnText (messages : List PyMsg) :
    ∀ acc : String,
      messages.foldl (fun acc m => acc ++ turnText m) acc = acc ++ specPromptBody messages := by
  induction messages with
  | nil => intro acc; simp [specPromptBody, str_append_empty]
  | cons m ms ih =>
      intro acc
      simp only [List.foldl_cons, specPromptBody, ih, str_append_assoc]

/-- C4: `ModelThread.run` builds the prompt deterministically as the
in-order concatenation, over every dict entry whose stringified content
is non-blank, of `<start_of_turn>user\n…<end_of_turn>\n` for role
`'user'` and `<start_of_turn>model\n…<end_of_turn>\n` for any other
role, followed by a final `<start_of_turn>model\n`; non-dict entries
and blank-content entries contribute nothing, and list-valued contents
are flattened to the space-joined text parts. -/
theorem conversation_text_eq_specPrompt (messages : List PyMsg) :
    conversation_text messages = specPrompt messages := by
  simp [conversation_text, specPrompt, foldl_turnText]

/-- Counterexample to C3 as stated: the fallback tokenization path of
`ModelThread.run` checks the stop event only on handler entry (line
2841) and enqueues its single `('chunk', …)` with no further check
after the blocking `generate()` (line 2884).  With the event set at
instant 5, a fallback entered at instant 0 still enqueues a chunk at
instant 10 — after the stop — so "once the stop event is set, no
further `('chunk', text)` message is placed on the queue" is false. -/
theorem cancellation_fallback_chunk_cex :
    eventIsSet (some 5) 10 = true ∧
    fallback_generation_chunk (some 5) 0 10 "leftover answer" =
      some (QueueMsg.chunk "leftover answer") := by
  decide

/-- C3 (amended): cancellation is cooperative and clean at every stop
check, but the fallback path re-checks only on entry.  Once the stop
event is set (at instant `k`, with `k ≤ t` for the current instant
`t`): the streaming callbacks enqueue nothing further
(`on_finalized_text` emits no `chunk`, `put` stops forwarding), any
terminal message the run enqueues is `stopped` — never `complete` —
and a fallback handler entered at or after the stop enqueues nothing.
(A fallback generation entered before the stop may still enqueue one
chunk after it, as the counterexample shows.) -/
theorem cancellation_clean (k t tPut : ℕ) (h : k ≤ t)
    (text response_text : String) :
    on_finalized_text (some k) t text = none ∧
    streamPutForwards (some k) t = false ∧
    terminalMessage (some k) t = QueueMsg.stopped ∧
    terminalMessage (some k) t ≠ QueueMsg.complete ∧
    fallback_generation_chunk (some k) t tPut response_text = none := by
  have hset : eventIsSet (some k) t = true := by
    simp [eventIsSet, h]
  refine ⟨?_, ?_, ?_, ?_, ?_⟩
  · simp [on_finalized_text, hset]
  · simp [streamPutForwards, hset]
  · simp [terminalMessage, hset]
  · simp [terminalMessage, hset]
  · simp [fallback_generation_chunk, hset]

/-- Witness for C3 at the concrete instants `k = 0`, `t = 1`. -/
theorem cancellation_clean_witness :
    on_finalized_text (some 0) 1 "hello" = none ∧
    streamPutForwards (some 0) 1 = false ∧
    terminalMessage (some 0) 1 = QueueMsg.stopped ∧
    terminalMessage (some 0) 1 ≠ QueueMsg.complete ∧
    fallback_generation_chunk (some 0) 1 2 "hello" = none :=
  cancellation_clean 0 1 2 (by decide) "hello" "hello"

/-- C7: token accounting formulas.  `count_text_tokens` returns 0 for
`None` and for the empty string (any encoder state);
`count_image_tokens n = 256 * n`; for every non-negative duration `d`,
`count_audio_tokens d = ⌊6.25 * d⌋`; both of the latter are
integer-valued by their types (`ℕ`, `ℤ`). -/
theorem token_accounting_formulas (enc : Option (String → ℕ)) (n : ℕ) (d : ℚ)
    (hd : 0 ≤ d) :
    count_text_tokens enc none = 0 ∧
    count_text_tokens enc (some "") = 0 ∧
    count_image_tokens n = 256 * n ∧
    count_audio_tokens d = ⌊(25 / 4 : ℚ) * d⌋ := by
  refine ⟨?_, ?_, ?_, ?_⟩
  · simp [count_text_tokens, pyFalsyStr]
  · simp [count_text_tokens, pyFalsyStr]
  · simp [count_image_tokens, Nat.mul_comm]
  · have hq : (0 : ℚ) ≤ d * (25 / 4) := by positivity
    simp [count_audio_tokens, pyInt, hq, mul_comm]

/-- Witness for C7 at `n = 3`, `d = 2.4`, encoder absent. -/
theorem token_accounting_formulas_witness :
    count_text_tokens none none = 0 ∧
    count_text_tokens none (some "") = 0 ∧
    count_image_tokens 3 = 256 * 3 ∧
    count_audio_tokens (12 / 5) = ⌊(25 / 4 : ℚ) * (12 / 5)⌋ :=
  token_accounting_formulas none 3 (12 / 5) (by norm_num)

/-- C1: when the computed total input token count exceeds 32,000,
`send_message` returns without appending to `chat_history`, without
clearing the input or the attachments, and without starting a
`ModelThread` (so, by contraposition on this same state, generation
starts only when the total is at most 32,000); when the earlier guards
pass (model loaded, not generating) the dialog shown is the
token-limit error. -/
theorem send_message_token_limit (s : AppState)
    (h : (max_context_tokens : ℚ) < calculate_total_input_tokens s) :
    (send_message s).threadStarted = false ∧
    (send_message s).chatHistory = s.chatHistory ∧
    (send_message s).inputText = s.inputText ∧
    (send_message s).attachments = s.attachments ∧
    (s.modelLoaded = true → s.isGenerating = false →
      (send_message s).dialog = some Dialog.tokenLimitError) := by
  cases hml : s.modelLoaded with
  | false => simp [send_message, hml, noChangeResult]
  | true =>
      cases hg : s.isGenerating with
      | true => simp [send_message, hml, hg, noChangeResult]
      | false => simp [send_message, hml, hg, h, noChangeResult]

/-- Witness for C1: a state whose encoder reports 50,000 tokens on
the input text. -/
theorem send_message_token_limit_witness :
    (max_context_tokens : ℚ) < calculate_total_input_tokens overLimitState ∧
    (send_message overLimitState).threadStarted = false ∧
    (send_message overLimitState).chatHistory = overLimitState.chatHistory ∧
    (send_message overLimitState).inputText = overLimitState.inputText ∧
    (send_message overLimitState).attachments = overLimitState.attachments ∧
    (send_message overLimitState).dialog = some Dialog.tokenLimitError := by
  have e1 : pyStrip "hi" = "hi" := by decide
  have e0 : pyStrip "" = "" := by decide
  have hcalc : calculate_total_input_tokens overLimitState = 50000 := by
    simp [calculate_total_input_tokens, overLimitState, e1, e0, count_text_tokens,
      pyFalsyStr, count_image_tokens, attachmentAudioTokens, pyParseInt, digitsVal,
      pySliceFrom, isImage]
  have h : (max_context_tokens : ℚ) < calculate_total_input_tokens overLimitState := by
    rw [hcalc]
    norm_num [max_context_tokens]
  obtain ⟨h1, h2, h3, h4, h5⟩ := send_message_token_limit overLimitState h
  exact ⟨h, h1, h2, h3, h4, h5 rfl rfl⟩

/-- Appending to a nonempty string keeps it nonempty. -/
theorem str_append_ne_empty (a b : String) (ha : a ≠ "") : a ++ b ≠ "" := by
  intro hc
  apply ha
  apply String.ext
  have hdata : a.data ++ b.data = [] := by
    have h := congrArg String.data hc
    rwa [String.data_append] at h
  have h0 : a.data = [] := (List.append_eq_nil.mp hdata).1
  simpa using h0

/-- `full_message` is empty only when both stripped inputs are. -/
theorem full_message_ne_empty (t c : String) (h : ¬(t = "" ∧ c = "")) :
    full_message t c ≠ "" := by
  by_cases hc : c = ""
  · have ht : t ≠ "" := fun ht => h ⟨ht, hc⟩
    simpa [full_message, hc] using ht
  · simp only [full_message, if_pos hc]
    exact str_append_ne_empty _ _ (str_append_ne_empty _ _ (str_append_ne_empty _ _ (by decide)))

/-- For a window size `m ≥ 1` the guarded negative slice of the code
is exactly "the last `m` entries". -/
theorem window_eq_takeLastN {α : Type} (m : ℤ) (hm : 1 ≤ m) (l : List α) :
    (if (l.length : ℤ) > m then pySliceFrom (-m) l else l) = takeLastN m.toNat l := by
  by_cases hlen : (l.length : ℤ) > m
  · have hneg : ¬(0 ≤ -m) := by omega
    simp [pySliceFrom, hneg, takeLastN, if_pos hlen]
  · have hle : l.length ≤ m.toNat := by omega
    simp [takeLastN, Nat.sub_eq_zero_of_le hle, if_neg hlen]

/-- Evaluation of `send_message` on the success path (all four guards
pass). -/
theorem send_message_success_eval (s : AppState)
    (hml : s.modelLoaded = true) (hg : s.isGenerating = false)
    (htok : ¬((max_context_tokens : ℚ) < calculate_total_input_tokens s))
    (hne : ¬(pyStrip s.inputText = "" ∧ pyStrip s.contextText = "")) :
    send_message s =
      { dialog := none
        chatHistory :=
          (s.chatHistory ++
              [mkUserEntry s.enc (pyStrip s.inputText)
                (full_message (pyStrip s.inputText) (pyStrip s.contextText))]) ++
            [{ role := "assistant", content := "", tokens := 0 }]
        inputText := ""
        attachments := []
        attachmentNote := !s.attachments.isEmpty
        threadStarted := true
        threadMessages :=
          buildThreadMessages s.enc s.inputText s.contextText s.chatHistory
            s.historySetting } := by
  simp [send_message, hml, hg, htok, hne]

/-- C5 (amended): queued attachments are never included in the
conversation turn.  Whenever `send_message` starts a generation, the
messages handed to the worker are a function of the encoder, input
text, context, history and window setting only — `buildThreadMessages`
takes no attachment argument — the attachment list is cleared, and a
"stored but not sent" note is shown when attachments were queued. -/
theorem send_message_ignores_attachments (s : AppState)
    (h : (send_message s).threadStarted = true) :
    (send_message s).threadMessages =
      buildThreadMessages s.enc s.inputText s.contextText s.chatHistory s.historySetting ∧
    (send_message s).attachments = [] ∧
    (s.attachments ≠ [] → (send_message s).attachmentNote = true) := by
  by_cases h1 : s.modelLoaded = false
  · simp [send_message, h1, noChangeResult] at h
  · by_cases h2 : s.isGenerating = true
    · simp [send_message, h1, h2, noChangeResult] at h
    · by_cases h3 : (max_context_tokens : ℚ) < calculate_total_input_tokens s
      · simp [send_message, h1, h2, h3, noChangeResult] at h
      · by_cases h4 : pyStrip s.inputText = "" ∧ pyStrip s.contextText = ""
        · simp [send_message, h1, h2, h3, h4, noChangeResult] at h
        · refine ⟨?_, ?_, ?_⟩
          · simp [send_message, h1, h2, h3, h4]
          · simp [send_message, h1, h2, h3, h4]
          · intro hne
            cases hatt : s.attachments with
            | nil => exact absurd hatt hne
            | cons a as => simp [send_message, h1, h2, h3, h4, hatt, List.isEmpty]

/-- `attachmentState` stays under the token limit (1 text token plus
256 image tokens). -/
theorem attachmentState_not_over :
    ¬((max_context_tokens : ℚ) < calculate_total_input_tokens attachmentState) := by
  have e1 : pyStrip "hi" = "hi" := by decide
  have e0 : pyStrip "" = "" := by decide
  have hcalc : calculate_total_input_tokens attachmentState = 257 := by
    simp [calculate_total_input_tokens, attachmentState, e1, e0, count_text_tokens,
      pyFalsyStr, count_image_tokens, attachmentAudioTokens, pyParseInt, digitsVal,
      pySliceFrom, isImage]
    norm_num
  rw [hcalc]
  norm_num [max_context_tokens]

/-- Removing the attachment also stays under the token limit. -/
theorem attachmentFreeState_not_over :
    ¬((max_context_tokens : ℚ) <
        calculate_total_input_tokens { attachmentState with attachments := [] }) := by
  have e1 : pyStrip "hi" = "hi" := by decide
  have e0 : pyStrip "" = "" := by decide
  have hcalc :
      calculate_total_input_tokens { attachmentState with attachments := [] } = 1 := by
    simp [calculate_total_input_tokens, attachmentState, e1, e0, count_text_tokens,
      pyFalsyStr, count_image_tokens, attachmentAudioTokens, pyParseInt, digitsVal,
      pySliceFrom, isImage]
  rw [hcalc]
  norm_num [max_context_tokens]

/-- Counterexample to C5 as stated: with one queued image attachment,
`send_message` starts generation, and the conversation turn handed to
the worker is identical to the one produced with no attachment queued
at all — the attachment is not included. -/
theorem attachments_not_included_cex :
    attachmentState.attachments ≠ [] ∧
    (send_message attachmentState).threadStarted = true ∧
    (send_message attachmentState).threadMessages =
      (send_message { attachmentState with attachments := [] }).threadMessages := by
  refine ⟨by decide, ?_, ?_⟩
  · rw [send_message_success_eval attachmentState rfl rfl attachmentState_not_over
      (by decide)]
  · rw [send_message_success_eval attachmentState rfl rfl attachmentState_not_over
      (by decide),
      send_message_success_eval _ rfl rfl attachmentFreeState_not_over (by decide)]

/-- Witness for the amended C5 at `attachmentState`. -/
theorem send_message_ignores_attachments_witness :
    (send_message attachmentState).threadMessages =
      buildThreadMessages attachmentState.enc attachmentState.inputText
        attachmentState.contextText attachmentState.chatHistory
        attachmentState.historySetting ∧
    (send_message attachmentState).attachments = [] ∧
    (attachmentState.attachments ≠ [] →
      (send_message attachmentState).attachmentNote = true) :=
  send_message_ignores_attachments attachmentState
    (by
      rw [send_message_success_eval attachmentState rfl rfl attachmentState_not_over
        (by decide)])

/-- C8 (amended): when the history-size setting parses to an integer
`max_messages ≥ 1` (non-integers default to 10) and `send_message`
starts a generation, the worker receives exactly the non-blank entries
among the last `max_messages` prior history entries, in order,
followed by the new user message; earlier entries are never sent. -/
theorem send_message_history_window (s : AppState)
    (hmax : 1 ≤ (pyParseInt s.historySetting).getD 10)
    (h : (send_message s).threadStarted = true) :
    (send_message s).threadMessages =
      (takeLastN ((pyParseInt s.historySetting).getD 10).toNat s.chatHistory).filterMap
        (fun e => if pyStrip e.content ≠ "" then some (⟨e.role, e.content⟩ : Msg) else none)
        ++ [⟨"user", full_message (pyStrip s.inputText) (pyStrip s.contextText)⟩] := by
  by_cases h1 : s.modelLoaded = false
  · simp [send_message, h1, noChangeResult] at h
  · by_cases h2 : s.isGenerating = true
    · simp [send_message, h1, h2, noChangeResult] at h
    · by_cases h3 : (max_context_tokens : ℚ) < calculate_total_input_tokens s
      · simp [send_message, h1, h2, h3, noChangeResult] at h
      · by_cases h4 : pyStrip s.inputText = "" ∧ pyStrip s.contextText = ""
        · simp [send_message, h1, h2, h3, h4, noChangeResult] at h
        · have hmsgs : (send_message s).threadMessages =
              buildThreadMessages s.enc s.inputText s.contextText s.chatHistory
                s.historySetting := by
            simp [send_message, h1, h2, h3, h4]
          rw [hmsgs]
          have hfull := full_message_ne_empty _ _ h4
          simp only [buildThreadMessages, List.dropLast_concat,
            window_eq_takeLastN _ hmax]
          simp [hfull]

/-- Counterexample to C8 as stated: with the history setting `"0"`
(which parses to the integer 0) and two prior non-blank entries, the
worker receives both prior entries — not "at most the last 0" —
because Python's `list[-0:]` is the whole list. -/
theorem history_window_cex :
    pyParseInt zeroWindowState.historySetting = some 0 ∧
    (send_message zeroWindowState).threadMessages =
      [⟨"user", "earlier question"⟩, ⟨"assistant", "earlier answer"⟩, ⟨"user", "hi"⟩] := by
  have hno : ¬((max_context_tokens : ℚ) < calculate_total_input_tokens zeroWindowState) := by
    have e1 : pyStrip "hi" = "hi" := by decide
    have hcalc : calculate_total_input_tokens zeroWindowState = 11 := by
      simp [calculate_total_input_tokens, zeroWindowState, e1, count_text_tokens,
        pyFalsyStr, count_image_tokens, attachmentAudioTokens, pyParseInt, digitsVal,
        pySliceFrom, isImage, pyStrip]
      norm_num
    rw [hcalc]
    norm_num [max_context_tokens]
  refine ⟨by decide, ?_⟩
  rw [send_message_success_eval zeroWindowState rfl rfl hno (by decide)]
  decide

/-- `windowWitnessState` stays under the token limit. -/
theorem windowWitnessState_not_over :
    ¬((max_context_tokens : ℚ) < calculate_total_input_tokens windowWitnessState) := by
  have e1 : pyStrip "next" = "next" := by decide
  have hcalc : calculate_total_input_tokens windowWitnessState = 3 := by
    simp [calculate_total_input_tokens, windowWitnessState, e1, count_text_tokens,
      pyFalsyStr, count_image_tokens, attachmentAudioTokens, pyParseInt, digitsVal,
      pySliceFrom, isImage, pyStrip]
    norm_num
  rw [hcalc]
  norm_num [max_context_tokens]

/-- Witness for the amended C8 at `windowWitnessState` (setting `"2"`,
three prior entries). -/
theorem send_message_history_window_witness :
    (send_message windowWitnessState).threadMessages =
      (takeLastN ((pyParseInt windowWitnessState.historySetting).getD 10).toNat
            windowWitnessState.chatHistory).filterMap
        (fun e => if pyStrip e.content ≠ "" then some (⟨e.role, e.content⟩ : Msg) else none)
        ++ [⟨"user",
              full_message (pyStrip windowWitnessState.inputText)
                (pyStrip windowWitnessState.contextText)⟩] :=
  send_message_history_window windowWitnessState (by decide)
    (by
      rw [send_message_success_eval windowWitnessState rfl rfl windowWitnessState_not_over
        (by decide)])

/-- C2 (code bug): `ModelManager.load_model` never consults
`offline_mode` — for any configuration it reaches `download_model`
whenever the model is not locally loadable.  Concretely, with
`offline_mode = true`: a `load_model` call on a model that is not
downloaded fetches it, and `init_model_async` with the last-used model
downloaded but failing to load locally also falls through to
`download_model`. -/
theorem offline_mode_not_consulted :
    (∀ (cfg : MMConfig) (local_load_ok : Bool),
      load_model_calls_download cfg false local_load_ok = true) ∧
    load_model_calls_download ⟨[], none, true⟩ false true = true ∧
    init_model_async_calls_download ⟨[], none, true⟩ true false true = true := by
  refine ⟨fun cfg lok => ?_, by decide, by decide⟩
  simp [load_model_calls_download]

/-- C6: config persistence is total and defaulting.  `load_config`
returns the parsed object when the file exists and parses, the exact
default `{"downloaded_models": [], "last_used_model": None,
"offline_mode": False}` in every other file state, and never
propagates an exception; `save_config` never propagates an exception
regardless of the write outcome. -/
theorem config_persistence_total (fs : ConfigFileState) (w : Except String Unit) :
    (∀ j, fs = ConfigFileState.parses j → load_config fs = Except.ok j) ∧
    ((∀ j, fs ≠ ConfigFileState.parses j) → load_config fs = Except.ok default_config) ∧
    (∃ v, load_config fs = Except.ok v) ∧
    (∃ r, save_config w = Except.ok r) := by
  refine ⟨?_, ?_, ?_, ?_⟩
  · intro j hj
    subst hj
    rfl
  · intro hne
    cases fs with
    | missing => rfl
    | unreadable => rfl
    | invalidJson => rfl
    | parses j => exact absurd rfl (hne j)
  · cases fs with
    | missing => exact ⟨default_config, rfl⟩
    | unreadable => exact ⟨default_config, rfl⟩
    | invalidJson => exact ⟨default_config, rfl⟩
    | parses j => exact ⟨j, rfl⟩
  · cases w with
    | ok u => exact ⟨none, rfl⟩
    | error e => exact ⟨some ("Error saving config: " ++ e), rfl⟩

/-- Witness for C6 at concrete file and write outcomes. -/
theorem config_persistence_total_witness :
    load_config (ConfigFileState.parses (Json.bool true)) = Except.ok (Json.bool true) ∧
    load_config ConfigFileState.missing = Except.ok default_config ∧
    (∃ r, save_config (Except.error "disk full") = Except.ok r) :=
  ⟨(config_persistence_total (ConfigFileState.parses (Json.bool true)) (Except.ok ())).1
      (Json.bool true) rfl,
   (config_persistence_total ConfigFileState.missing (Except.ok ())).2.1
      (fun j h => ConfigFileState.noConfusion h),
   (config_persistence_total ConfigFileState.missing (Except.error "disk full")).2.2.2⟩

/-- One viewer operation preserves the invariant. -/
theorem viewer_step_preserves (total_pages : ℕ) (h : 1 ≤ total_pages)
    (st : ViewerState) (op : ViewerOp) (hinv : viewer_inv total_pages st) :
    viewer_inv total_pages (viewer_step total_pages st op) := by
  obtain ⟨i1, i2, i3, i4, i5⟩ := hinv
  have htot : (1 : ℤ) ≤ (total_pages : ℤ) := by exact_mod_cast h
  cases op with
  | prev_page =>
      simp only [viewer_step]
      split_ifs with hc
      · refine ⟨?_, ?_, i3, i4, i5⟩
        · show (0 : ℤ) ≤ st.current_page - 1
          omega
        · show st.current_page - 1 < (total_pages : ℤ)
          omega
      · exact ⟨i1, i2, i3, i4, i5⟩
  | next_page =>
      simp only [viewer_step]
      split_ifs with hc
      · refine ⟨?_, ?_, i3, i4, i5⟩
        · show (0 : ℤ) ≤ st.current_page + 1
          omega
        · show st.current_page + 1 < (total_pages : ℤ)
          omega
      · exact ⟨i1, i2, i3, i4, i5⟩
  | zoom_in =>
      refine ⟨i1, i2, ?_, ?_, i5⟩
      · exact le_min (by norm_num) (by linarith)
      · exact min_le_left _ _
  | zoom_out =>
      refine ⟨i1, i2, ?_, ?_, i5⟩
      · exact le_max_left _ _
      · exact max_le (by norm_num) (by linarith)
  | toggle_page_selection =>
      simp only [viewer_step]
      split_ifs with hc
      · exact ⟨i1, i2, i3, i4, (Finset.erase_subset _ _).trans i5⟩
      · refine ⟨i1, i2, i3, i4, ?_⟩
        rw [Finset.insert_subset_iff]
        exact ⟨by rw [Finset.mem_Icc]; omega, i5⟩
  | select_range fromStr toStr =>
      simp only [viewer_step]
      cases hpa : pyParseInt fromStr with
      | none => exact ⟨i1, i2, i3, i4, i5⟩
      | some a =>
          cases hpb : pyParseInt toStr with
          | none => exact ⟨i1, i2, i3, i4, i5⟩
          | some b =>
              refine ⟨i1, i2, i3, i4, ?_⟩
              apply Finset.union_subset i5
              apply Finset.Icc_subset_Icc
              · exact le_max_left _ _
              · exact max_le (max_le htot (min_le_right _ _)) (min_le_right _ _)
  | clear_selection =>
      exact ⟨i1, i2, i3, i4, Finset.empty_subset _⟩

/-- C9: DocumentViewer state invariant for PDFs.  For every document
with `total_pages ≥ 1` and every sequence of user operations applied
from the initial state (`current_page = 0`, `zoom_level = 1.0`, empty
selection), the state satisfies `0 ≤ current_page < total_pages`,
`0.5 ≤ zoom_level ≤ 3.0`, and `selected_pages ⊆ {1, …, total_pages}`. -/
theorem viewer_invariant (total_pages : ℕ) (h : 1 ≤ total_pages) (ops : List ViewerOp) :
    viewer_inv total_pages (ops.foldl (viewer_step total_pages) viewer_init) := by
  have hinit : viewer_inv total_pages viewer_init := by
    refine ⟨le_refl _, ?_, by norm_num [viewer_init], by norm_num [viewer_init], by simp [viewer_init]⟩
    show (0 : ℤ) < (total_pages : ℤ)
    omega
  suffices hall : ∀ st, viewer_inv total_pages st →
      viewer_inv total_pages (ops.foldl (viewer_step total_pages) st) from hall _ hinit
  induction ops with
  | nil => exact fun st hst => hst
  | cons op ops ih =>
      exact fun st hst => ih _ (viewer_step_preserves total_pages h st op hst)

/-- Witness for C9: a one-page document after a zoom-in, a page turn
and a range selection. -/
theorem viewer_invariant_witness :
    viewer_inv 1
      (List.foldl (viewer_step 1) viewer_init
        [ViewerOp.zoom_in, ViewerOp.next_page, ViewerOp.select_range "1" "7"]) :=
  viewer_invariant 1 (by decide)
    [ViewerOp.zoom_in, ViewerOp.next_page, ViewerOp.select_range "1" "7"]

/-- `posixJoin` ends the way its second component ends. -/
theorem posixJoin_getLast (a b : List Char) (hb : b ≠ []) :
    (posixJoin a b).getLast? = b.getLast? := by
  unfold posixJoin
  split_ifs with h1 h2
  · rfl
  · exact List.getLast?_append_of_ne_nil a hb
  · show (a ++ '/' :: b).getLast? = b.getLast?
    rw [List.getLast?_append_of_ne_nil a (by simp),
      show ('/' :: b) = ['/'] ++ b from rfl,
      List.getLast?_append_of_ne_nil _ hb]

/-- `posixJoin` with a nonempty second component is nonempty. -/
theorem posixJoin_ne_nil (a b : List Char) (hb : b ≠ []) : posixJoin a b ≠ [] := by
  unfold posixJoin
  split_ifs with h1 h2
  · exact hb
  · simp [hb]
  · simp

/-- The models directory path ends with the `'s'` of `"models"`. -/
theorem models_dir_getLast (home : List Char) :
    (models_dir home).getLast? = some 's' := by
  unfold models_dir
  rw [posixJoin_getLast _ _ (by decide)]
  decide

/-- The models directory path is nonempty. -/
theorem models_dir_ne_nil (home : List Char) : models_dir home ≠ [] :=
  posixJoin_ne_nil _ _ (by decide)

/-- The sanitized model name contains neither `'/'` nor `'\'`. -/
theorem safe_name_no_separators (model_name : List Char) :
    '/' ∉ safe_name model_name ∧ '\\' ∉ safe_name model_name := by
  constructor <;>
  · intro hmem
    simp only [safe_name, pyReplaceChar, List.map_map, List.mem_map,
      Function.comp] at hmem
    obtain ⟨c, _, hc⟩ := hmem
    split_ifs at hc <;> simp_all

/-- The join performed by `get_model_path` always inserts exactly one
separator: the sanitized name cannot start with `'/'` and the models
directory is nonempty and ends in `'s'`. -/
theorem get_model_path_join (home model_name : List Char) :
    get_model_path home model_name =
      models_dir home ++ '/' :: safe_name model_name := by
  obtain ⟨h1, _⟩ := safe_name_no_separators model_name
  have hhead : (safe_name model_name).head? ≠ some '/' := by
    cases hsn : safe_name model_name with
    | nil => simp
    | cons c cs =>
        have hc : c ≠ '/' := fun hc =>
          h1 (by rw [hsn, hc]; exact List.mem_cons_self _ _)
        simpa using hc
  unfold get_model_path posixJoin
  split_ifs with hA hB
  · exact absurd hA hhead
  · exfalso
    rcases hB with hB | hB
    · exact models_dir_ne_nil home hB
    · rw [models_dir_getLast home] at hB
      simp at hB
  · rfl

/-- `splitSep` never returns the empty list of components. -/
theorem splitSep_ne_nil (sep : Char) (p : List Char) : splitSep sep p ≠ [] := by
  cases p with
  | nil => simp [splitSep]
  | cons c cs =>
      simp only [splitSep]
      cases splitSep sep cs with
      | nil => simp
      | cons r rs => split_ifs <;> simp

/-- Splitting distributes over a separator occurrence. -/
theorem splitSep_append_cons (sep : Char) (p q : List Char) :
    splitSep sep (p ++ sep :: q) = splitSep sep p ++ splitSep sep q := by
  induction p with
  | nil =>
      cases hq : splitSep sep q with
      | nil => exact absurd hq (splitSep_ne_nil sep q)
      | cons r rs => simp [splitSep, hq]
  | cons c cs ih =>
      simp only [List.cons_append, splitSep, List.append_eq]
      rw [ih]
      cases hcs : splitSep sep cs with
      | nil => exact absurd hcs (splitSep_ne_nil sep cs)
      | cons r rs => split_ifs <;> simp

/-- A separator-free string is a single component. -/
theorem splitSep_no_sep (sep : Char) (q : List Char) (h : sep ∉ q) :
    splitSep sep q = [q] := by
  induction q with
  | nil => rfl
  | cons c cs ih =>
      have hc : c ≠ sep := fun hceq => h (by rw [hceq]; exact List.mem_cons_self _ _)
      have hcs : sep ∉ cs := fun hm => h (List.mem_cons_of_mem _ hm)
      simp [splitSep, ih hcs, hc]

/-- Joining a separator-free component that is neither empty nor a dot
component resolves to a proper child of the directory. -/
theorem resolvePath_child (d sn : List Char) (hsep : '/' ∉ sn)
    (h0 : sn ≠ []) (h1 : sn ≠ ['.']) (h2 : sn ≠ ['.', '.']) :
    resolvePath (d ++ '/' :: sn) = resolvePath d ++ [sn] := by
  unfold resolvePath
  rw [splitSep_append_cons, splitSep_no_sep '/' sn hsep, List.foldl_append]
  simp [resolveStep, h0, h1, h2]

/-- Counterexample to C10 as stated: the sanitizer replaces only `'/'`
and `'\'`, leaving `".."` (and `""`, `"."`) unchanged, so
`get_model_path("..")` is `models_dir/..`, which resolves to the
parent directory `~/.educational_ai_tutor` — not a single child
component of the models directory and not under it
(`delete_model("..")` hands exactly this path to `shutil.rmtree`);
`get_model_path("")` yields `models_dir/`, the models directory
itself rather than a child. -/
theorem get_model_path_escape_cex :
    safe_name "..".data = "..".data ∧
    get_model_path "/home/u".data "..".data =
      "/home/u/.educational_ai_tutor/models/..".data ∧
    resolvePath (get_model_path "/home/u".data "..".data) =
      resolvePath "/home/u/.educational_ai_tutor".data ∧
    ¬(resolvePath "/home/u/.educational_ai_tutor/models".data <+:
        resolvePath (get_model_path "/home/u".data "..".data)) ∧
    get_model_path "/home/u".data "".data =
      "/home/u/.educational_ai_tutor/models/".data := by
  decide

/-- C10 (amended): `get_model_path` returns
`os.path.join(models_dir, s)` with `s` the model name after every
`'/'` and `'\'` is replaced by `'_'`, so `s` contains no path
separator and the result is `models_dir ++ "/" ++ s`.  For every
model name whose sanitized form is not `""`, `"."` or `".."`, that
path resolves to a proper child component of the models directory, so
`is_model_downloaded`, `delete_model` and `get_model_size` — which
address the filesystem only through `get_model_path` — stay under
`models_dir`; the sanitizer does not rewrite `""`, `"."` or `".."`,
and for those the path is the models directory itself or escapes to
its parent (see the counterexample). -/
theorem get_model_path_resolved (home model_name : List Char)
    (h0 : safe_name model_name ≠ [])
    (h1 : safe_name model_name ≠ ['.'])
    (h2 : safe_name model_name ≠ ['.', '.']) :
    '/' ∉ safe_name model_name ∧
    '\\' ∉ safe_name model_name ∧
    get_model_path home model_name = models_dir home ++ '/' :: safe_name model_name ∧
    resolvePath (get_model_path home model_name) =
      resolvePath (models_dir home) ++ [safe_name model_name] ∧
    resolvePath (models_dir home) <+: resolvePath (get_model_path home model_name) := by
  obtain ⟨hs1, hs2⟩ := safe_name_no_separators model_name
  have hjoin := get_model_path_join home model_name
  have hres : resolvePath (get_model_path home model_name) =
      resolvePath (models_dir home) ++ [safe_name model_name] := by
    rw [hjoin]
    exact resolvePath_child _ _ hs1 h0 h1 h2
  refine ⟨hs1, hs2, hjoin, hres, ?_⟩
  rw [hres]
  exact List.prefix_append _ _

/-- Witness for the amended C10 at a real model name. -/
theorem get_model_path_resolved_witness :
    '/' ∉ safe_name "unsloth/gemma-3n-E4B-it".data ∧
    '\\' ∉ safe_name "unsloth/gemma-3n-E4B-it".data ∧
    get_model_path "/home/u".data "unsloth/gemma-3n-E4B-it".data =
      models_dir "/home/u".data ++ '/' :: safe_name "unsloth/gemma-3n-E4B-it".data ∧
    resolvePath (get_model_path "/home/u".data "unsloth/gemma-3n-E4B-it".data) =
      resolvePath (models_dir "/home/u".data) ++
        [safe_name "unsloth/gemma-3n-E4B-it".data] ∧
    resolvePath (models_dir "/home/u".data) <+:
      resolvePath (get_model_path "/home/u".data "unsloth/gemma-3n-E4B-it".data) :=
  get_model_path_resolved "/home/u".data "unsloth/gemma-3n-E4B-it".data
    (by decide) (by decide) (by decide)

end GemmaSuite
